import Mathlib

/-!
# Verification of the extraction-and-pagination engine

Shallow embedding of the scraper engine (`scrapePage` and `runScraper`):
the engine receives a declarative selector configuration and drives a
bounded sequence of page visits, each yielding zero or more records.

The browser-automation collaborator (the page session) is modelled as a
deterministic stub (`SessionStub`): each page index is mapped to the
outcome of every selector query and to the outcome of the next-page
advance attempt.  JavaScript numbers are modelled as integers, strings as
Lean strings, `null`/`undefined` as `Option`; JavaScript objects keyed by
strings are modelled as association lists with unique keys where a
repeated assignment overwrites in place (`setField`).
-/

/-- One field spec `{fieldName, cssSelector}` (the `Selector` shape consumed
by `scrapePage`). -/
structure Selector where
  fieldName : String
  cssSelector : String
  deriving DecidableEq, Repr

/-- The part of the scraper configuration read by `runScraper`: `url`,
`selectors`, `paginationEnabled`, `paginationNextSelector` (optional, may be
empty) and `maxDepth` (optional). -/
structure ScraperConfig where
  url : String
  selectors : List Selector
  paginationEnabled : Bool
  paginationNextSelector : Option String
  maxDepth : Option Int
  deriving DecidableEq, Repr

/-- Outcome of `waitForSelector` plus `$eval` for one CSS selector on one
page: either one of the two calls raises (selector timeout or text
retrieval failure), or they return the first matching element's
`textContent`, which may be `null`. -/
inductive QueryOutcome where
  | fail
  | text (t : Option String)
  deriving DecidableEq, Repr

/-- Outcome of one next-page advance attempt, covering the three failure
paths in the source: `waitForSelector` raising, `page.$` returning null,
and the click/navigation pair raising. -/
inductive NextOutcome where
  | advance
  | waitFail
  | noHandle
  | clickFail
  deriving DecidableEq, Repr

/-- Deterministic stub of one rendered page: what every selector query
returns, and what a next-page advance attempt from this page does. -/
structure PageStub where
  query : String → QueryOutcome
  next : NextOutcome

/-- Deterministic page-session stub: the page shown at each (1-based)
page index. -/
structure SessionStub where
  pages : Int → PageStub

/-- One run environment: whether launching the browser (and creating and
configuring the page) succeeds, whether the initial navigation to the
target URL succeeds, and the session stub behind them. -/
structure World where
  launchOk : Bool
  gotoOk : Bool
  session : SessionStub

/-- Drop leading whitespace characters. -/
def dropLeadingWs : List Char → List Char
  | [] => []
  | c :: r => if c.isWhitespace then dropLeadingWs r else c :: r

/-- JavaScript `String.prototype.trim()`: strip leading and trailing
whitespace. -/
def jsTrim (s : String) : String :=
  ⟨(dropLeadingWs (dropLeadingWs s.data.reverse).reverse)⟩

/-- A scraped record: JavaScript object mapping field name to extracted
text or null (`ScrapedDataItem`). -/
abbrev ScrapedDataItem := List (String × Option String)

/-- JavaScript object assignment `obj[k] = v`: overwrite in place when the
key exists, append otherwise. -/
def setField : ScrapedDataItem → String → Option String → ScrapedDataItem
  | [], k, v => [(k, v)]
  | (k', v') :: r, k, v =>
      if k' = k then (k', v) :: r else (k', v') :: setField r k v

/-- JavaScript object read `obj[k]`: `none` when the key is absent. -/
def getField : ScrapedDataItem → String → Option (Option String)
  | [], _ => none
  | (k', v) :: r, k => if k' = k then some v else getField r k

/-- The per-field body of the loop in `scrapePage`: empty/whitespace-only
selector gives null; a raising query gives null (caught); a null
`textContent` gives null; otherwise the trimmed text, normalised to null
when empty (`elementText?.trim() || null`). -/
def extractField (p : PageStub) (sel : Selector) : Option String :=
  if jsTrim sel.cssSelector = "" then none
  else
    match p.query sel.cssSelector with
    | QueryOutcome.fail => none
    | QueryOutcome.text none => none
    | QueryOutcome.text (some s) => if jsTrim s = "" then none else some (jsTrim s)

/-- The field loop of `scrapePage`: fold over the selector list, writing
each field into the record and accumulating the `hasData` flag, which is
set exactly when a field produced a non-null trimmed text. -/
def scrapeFields (p : PageStub) :
    List Selector → ScrapedDataItem → Bool → ScrapedDataItem × Bool
  | [], acc, hd => (acc, hd)
  | sel :: rest, acc, hd =>
      let v := extractField p sel
      scrapeFields p rest (setField acc sel.fieldName v) (hd || v.isSome)

/-- `scrapePage`: scrape a single page; return the one record when it has
at least one non-null value (`hasData`), zero records otherwise. -/
def scrapePage (p : PageStub) (selectors : List Selector) : List ScrapedDataItem :=
  let r := scrapeFields p selectors [] false
  if r.2 then [r.1] else []

/-- JavaScript truthiness of an optional string (`undefined` and `""` are
falsy). -/
def strTruthy : Option String → Bool
  | none => false
  | some s => s != ""

/-- JavaScript truthiness of an optional number (`undefined` and `0` are
falsy). -/
def intTruthy : Option Int → Bool
  | none => false
  | some d => d != 0

/-- `maxDepth` as computed by `runScraper`:
`paginationEnabled && maxDepth ? maxDepth : 1`. -/
def effMaxDepth (cfg : ScraperConfig) : Int :=
  if cfg.paginationEnabled && intTruthy cfg.maxDepth then cfg.maxDepth.getD 1 else 1

/-- The `while (currentPageNum <= maxDepth)` loop of `runScraper`, with a
fuel parameter for termination (every iteration that recurses increments
the page number, so `maxD.toNat + 1` fuel is always enough).  Each
iteration scrapes the current page, appends the page number to the visit
log, and then attempts an advance exactly when
`paginationEnabled && paginationNextSelector && currentPageNum < maxDepth`;
every failing advance path breaks out of the loop. -/
def runLoop (env : SessionStub) (sels : List Selector) (pagOn : Bool)
    (ns : Option String) (maxD : Int) :
    Nat → Int → List ScrapedDataItem × List Int → List ScrapedDataItem × List Int
  | 0, _, acc => acc
  | fuel + 1, n, (items, visited) =>
      if n ≤ maxD then
        if pagOn && strTruthy ns && decide (n < maxD) then
          match (env.pages n).next with
          | NextOutcome.advance =>
              runLoop env sels pagOn ns maxD fuel (n + 1)
                (items ++ scrapePage (env.pages n) sels, visited ++ [n])
          | NextOutcome.waitFail =>
              (items ++ scrapePage (env.pages n) sels, visited ++ [n])
          | NextOutcome.noHandle =>
              (items ++ scrapePage (env.pages n) sels, visited ++ [n])
          | NextOutcome.clickFail =>
              (items ++ scrapePage (env.pages n) sels, visited ++ [n])
        else (items ++ scrapePage (env.pages n) sels, visited ++ [n])
      else (items, visited)

/-- What one run produces: the returned value or thrown error, the visit
log (page numbers in visit order), and the browser lifecycle facts
enforced by the `try`/`finally` of the source. -/
structure RunOutcome where
  result : Except String (List ScrapedDataItem)
  visited : List Int
  browserAcquired : Bool
  browserClosed : Bool

/-- `runScraper`: launch the browser (fatal on failure, nothing to close),
navigate to the target URL (fatal on failure, browser closed by the
`finally`), then run the pagination loop and return the accumulated items;
the `finally` closes the browser on every path where it was acquired. -/
def runScraper (w : World) (cfg : ScraperConfig) : RunOutcome :=
  if w.launchOk = false then
    { result := Except.error ("Scraping failed for " ++ cfg.url)
      visited := []
      browserAcquired := false
      browserClosed := false }
  else if w.gotoOk = false then
    { result := Except.error ("Scraping failed for " ++ cfg.url)
      visited := []
      browserAcquired := true
      browserClosed := true }
  else
    let d := effMaxDepth cfg
    let r := runLoop w.session cfg.selectors cfg.paginationEnabled
      cfg.paginationNextSelector d (d.toNat + 1) 1 ([], [])
    { result := Except.ok r.1
      visited := r.2
      browserAcquired := true
      browserClosed := true }

/-! ## Lemmas on record construction -/

theorem mem_keys_setField (r : ScrapedDataItem) (k k2 : String) (v : Option String) :
    k2 ∈ (setField r k v).map Prod.fst ↔ k2 ∈ r.map Prod.fst ∨ k2 = k := by
  induction r with
  | nil => simp [setField]
  | cons hd t ih =>
    obtain ⟨k3, v3⟩ := hd
    by_cases hk : k3 = k
    · subst hk
      simp [setField]
      tauto
    · simp [setField, hk, ih]
      tauto

theorem nodup_keys_setField (r : ScrapedDataItem) (k : String) (v : Option String)
    (h : (r.map Prod.fst).Nodup) : ((setField r k v).map Prod.fst).Nodup := by
  induction r with
  | nil => simp [setField]
  | cons hd t ih =>
    obtain ⟨k3, v3⟩ := hd
    simp only [List.map_cons, List.nodup_cons] at h
    by_cases hk : k3 = k
    · subst hk
      simpa [setField] using h
    · simp only [setField, if_neg hk, List.map_cons, List.nodup_cons]
      refine ⟨fun hm => ?_, ih h.2⟩
      rcases (mem_keys_setField t k k3 v).1 hm with h1 | h1
      · exact h.1 h1
      · exact hk h1

theorem getField_setField_self (r : ScrapedDataItem) (k : String) (v : Option String) :
    getField (setField r k v) k = some v := by
  induction r with
  | nil => simp [setField, getField]
  | cons hd t ih =>
    obtain ⟨k3, v3⟩ := hd
    by_cases hk : k3 = k
    · subst hk
      simp [setField, getField]
    · simp [setField, getField, hk, ih]

theorem getField_setField_ne (r : ScrapedDataItem) (k k2 : String) (v : Option String)
    (h : k2 ≠ k) : getField (setField r k v) k2 = getField r k2 := by
  induction r with
  | nil => simp [setField, getField, Ne.symm h]
  | cons hd t ih =>
    obtain ⟨k3, v3⟩ := hd
    by_cases hk : k3 = k
    · subst hk
      simp [setField, getField, Ne.symm h]
    · simp [setField, getField, hk, ih]

theorem getField_eq_none_iff (r : ScrapedDataItem) (k : String) :
    getField r k = none ↔ k ∉ r.map Prod.fst := by
  induction r with
  | nil => simp [getField]
  | cons hd t ih =>
    obtain ⟨k3, v3⟩ := hd
    by_cases hk : k3 = k
    · subst hk
      simp [getField]
    · have hk2 : ¬k = k3 := fun hh => hk hh.symm
      simp [getField, hk, ih, hk2]

theorem getField_mem (r : ScrapedDataItem) (k : String) (v : Option String)
    (h : getField r k = some v) : (k, v) ∈ r := by
  induction r with
  | nil => simp [getField] at h
  | cons hd t ih =>
    obtain ⟨k3, v3⟩ := hd
    by_cases hk : k3 = k
    · subst hk
      simp only [getField, if_true, eq_self_iff_true, if_pos, Option.some.injEq] at h
      rw [← h]
      exact List.mem_cons_self _ _
    · simp only [getField, if_neg hk] at h
      exact List.mem_cons_of_mem _ (ih h)

/-! ## Lemmas on the field loop -/

theorem scrapeFields_snd (p : PageStub) (sels : List Selector) :
    ∀ (acc : ScrapedDataItem) (b : Bool),
      (scrapeFields p sels acc b).2 = (b || sels.any fun s => (extractField p s).isSome) := by
  induction sels with
  | nil => intro acc b; simp [scrapeFields]
  | cons sel rest ih =>
    intro acc b
    simp [scrapeFields, ih, List.any_cons, Bool.or_assoc]

theorem mem_keys_scrapeFields (p : PageStub) (sels : List Selector) :
    ∀ (acc : ScrapedDataItem) (b : Bool) (k : String),
      (k ∈ (scrapeFields p sels acc b).1.map Prod.fst ↔
        k ∈ acc.map Prod.fst ∨ k ∈ sels.map fun s => s.fieldName) := by
  induction sels with
  | nil => intro acc b k; simp [scrapeFields]
  | cons sel rest ih =>
    intro acc b k
    simp only [scrapeFields]
    rw [ih, mem_keys_setField]
    simp only [List.map_cons, List.mem_cons]
    tauto

theorem nodup_keys_scrapeFields (p : PageStub) (sels : List Selector) :
    ∀ (acc : ScrapedDataItem) (b : Bool), (acc.map Prod.fst).Nodup →
      ((scrapeFields p sels acc b).1.map Prod.fst).Nodup := by
  induction sels with
  | nil => intro acc b h; simpa [scrapeFields] using h
  | cons sel rest ih =>
    intro acc b h
    simp only [scrapeFields]
    exact ih _ _ (nodup_keys_setField _ _ _ h)

theorem getField_scrapeFields_stable (p : PageStub) (sels : List Selector) :
    ∀ (acc : ScrapedDataItem) (b : Bool) (k : String),
      k ∉ (sels.map fun s => s.fieldName) →
      getField (scrapeFields p sels acc b).1 k = getField acc k := by
  induction sels with
  | nil => intro acc b k _; simp [scrapeFields]
  | cons sel rest ih =>
    intro acc b k hk
    simp only [List.map_cons, List.mem_cons] at hk
    push_neg at hk
    simp only [scrapeFields]
    rw [ih _ _ _ hk.2, getField_setField_ne _ _ _ _ hk.1]

theorem getField_scrapeFields (p : PageStub) (sels : List Selector)
    (hnd : (sels.map fun s => s.fieldName).Nodup) :
    ∀ (acc : ScrapedDataItem) (b : Bool) (sel : Selector), sel ∈ sels →
      getField (scrapeFields p sels acc b).1 sel.fieldName = some (extractField p sel) := by
  induction sels with
  | nil => intro acc b sel h; simp at h
  | cons s0 rest ih =>
    intro acc b sel hmem
    simp only [List.map_cons, List.nodup_cons] at hnd
    rcases List.mem_cons.1 hmem with rfl | hmem2
    · simp only [scrapeFields]
      rw [getField_scrapeFields_stable p rest _ _ _ hnd.1, getField_setField_self]
    · simp only [scrapeFields]
      exact ih hnd.2 _ _ _ hmem2

/-! ## Lemmas on the pagination loop -/

theorem runLoop_succ (env : SessionStub) (sels : List Selector) (pagOn : Bool)
    (ns : Option String) (maxD : Int) (fuel : Nat) (n : Int)
    (items : List ScrapedDataItem) (visited : List Int) :
    runLoop env sels pagOn ns maxD (fuel + 1) n (items, visited) =
      if n ≤ maxD then
        if pagOn && strTruthy ns && decide (n < maxD) then
          match (env.pages n).next with
          | NextOutcome.advance =>
              runLoop env sels pagOn ns maxD fuel (n + 1)
                (items ++ scrapePage (env.pages n) sels, visited ++ [n])
          | NextOutcome.waitFail => (items ++ scrapePage (env.pages n) sels, visited ++ [n])
          | NextOutcome.noHandle => (items ++ scrapePage (env.pages n) sels, visited ++ [n])
          | NextOutcome.clickFail => (items ++ scrapePage (env.pages n) sels, visited ++ [n])
        else (items ++ scrapePage (env.pages n) sels, visited ++ [n])
      else (items, visited) := rfl

theorem runLoop_length_le (env : SessionStub) (sels : List Selector) (pagOn : Bool)
    (ns : Option String) (maxD : Int) :
    ∀ (fuel : Nat) (n : Int) (items : List ScrapedDataItem) (visited : List Int),
      ((runLoop env sels pagOn ns maxD fuel n (items, visited)).2).length
        ≤ visited.length + (maxD - n + 1).toNat := by
  intro fuel
  induction fuel with
  | zero =>
    intro n items visited
    simp only [runLoop]
    exact Nat.le_add_right _ _
  | succ f ih =>
    intro n items visited
    rw [runLoop_succ]
    by_cases hn : n ≤ maxD
    · rw [if_pos hn]
      by_cases hc : (pagOn && strTruthy ns && decide (n < maxD)) = true
      · rw [if_pos hc]
        rcases hx : (env.pages n).next with _ | _ | _ | _
        · have h2 := ih (n + 1) (items ++ scrapePage (env.pages n) sels) (visited ++ [n])
          simp only [List.length_append, List.length_cons, List.length_nil] at h2 ⊢
          omega
        all_goals
          simp only [List.length_append, List.length_cons, List.length_nil]
          omega
      · rw [if_neg hc]
        simp only [List.length_append, List.length_cons, List.length_nil]
        omega
    · rw [if_neg hn]
      exact Nat.le_add_right _ _

theorem runLoop_length_all_advance (env : SessionStub) (sels : List Selector)
    (ns : Option String) (maxD : Int) (hns : strTruthy ns = true) :
    ∀ (fuel : Nat) (n : Int) (items : List ScrapedDataItem) (visited : List Int),
      n ≤ maxD → (maxD - n).toNat < fuel →
      (∀ i : Int, n ≤ i → i < maxD → (env.pages i).next = NextOutcome.advance) →
      ((runLoop env sels true ns maxD fuel n (items, visited)).2).length
        = visited.length + (maxD - n + 1).toNat := by
  intro fuel
  induction fuel with
  | zero =>
    intro n items visited hn hf ha
    omega
  | succ f ih =>
    intro n items visited hn hf ha
    rw [runLoop_succ, if_pos hn]
    by_cases hlt : n < maxD
    · have hc : (true && strTruthy ns && decide (n < maxD)) = true := by
        simp [hns, hlt]
      rw [if_pos hc, ha n le_rfl hlt]
      have h2 := ih (n + 1) (items ++ scrapePage (env.pages n) sels) (visited ++ [n])
        (by omega) (by omega) (fun i hi hi2 => ha i (by omega) hi2)
      simp only [List.length_append, List.length_cons, List.length_nil] at h2 ⊢
      omega
    · have hc : ¬((true && strTruthy ns && decide (n < maxD)) = true) := by
        simp [hlt]
      rw [if_neg hc]
      simp only [List.length_append, List.length_cons, List.length_nil]
      omega

theorem runLoop_length_of_fail (env : SessionStub) (sels : List Selector)
    (ns : Option String) (maxD : Int) (hns : strTruthy ns = true) :
    ∀ (fuel : Nat) (n : Int) (items : List ScrapedDataItem) (visited : List Int),
      n ≤ maxD →
      (∃ i : Int, n ≤ i ∧ i < maxD ∧ (env.pages i).next ≠ NextOutcome.advance) →
      ((runLoop env sels true ns maxD fuel n (items, visited)).2).length
        < visited.length + (maxD - n + 1).toNat := by
  intro fuel
  induction fuel with
  | zero =>
    intro n items visited hn hex
    simp only [runLoop]
    omega
  | succ f ih =>
    intro n items visited hn hex
    obtain ⟨i, hi1, hi2, hi3⟩ := hex
    have hlt : n < maxD := by omega
    have hc : (true && strTruthy ns && decide (n < maxD)) = true := by
      simp [hns, hlt]
    rw [runLoop_succ, if_pos hn, if_pos hc]
    rcases hx : (env.pages n).next with _ | _ | _ | _
    · have hne : i ≠ n := fun h => hi3 (h ▸ hx)
      have h2 := ih (n + 1) (items ++ scrapePage (env.pages n) sels) (visited ++ [n])
        (by omega) ⟨i, by omega, hi2, hi3⟩
      simp only [List.length_append, List.length_cons, List.length_nil] at h2 ⊢
      omega
    all_goals
      simp only [List.length_append, List.length_cons, List.length_nil]
      omega

theorem effMaxDepth_of_enabled (cfg : ScraperConfig) (N : Int)
    (hp : cfg.paginationEnabled = true) (hm : cfg.maxDepth = some N) (hN : N ≠ 0) :
    effMaxDepth cfg = N := by
  simp [effMaxDepth, hp, hm, intTruthy, hN]

theorem runScraper_ok (w : World) (cfg : ScraperConfig) (hl : w.launchOk = true)
    (hg : w.gotoOk = true) :
    runScraper w cfg =
      { result := Except.ok (runLoop w.session cfg.selectors cfg.paginationEnabled
          cfg.paginationNextSelector (effMaxDepth cfg) ((effMaxDepth cfg).toNat + 1) 1 ([], [])).1
        visited := (runLoop w.session cfg.selectors cfg.paginationEnabled
          cfg.paginationNextSelector (effMaxDepth cfg) ((effMaxDepth cfg).toNat + 1) 1 ([], [])).2
        browserAcquired := true
        browserClosed := true } := by
  simp [runScraper, hl, hg]

/-! ## Big-step relation of a run

`LoopStep` is the state machine of the pagination walker read as a
relation between a loop entry state (current page number plus accumulated
items and visit log) and the final accumulator; `RunRel` extends it with
the launch and initial-navigation stages.  `runScraper` is one function
realising this relation; the relation itself has exactly one outcome per
input, which is the determinism property. -/

inductive LoopStep (env : SessionStub) (sels : List Selector) (pagOn : Bool)
    (ns : Option String) (maxD : Int) :
    Int → List ScrapedDataItem × List Int → List ScrapedDataItem × List Int → Prop
  | done (n : Int) (items : List ScrapedDataItem) (visited : List Int) :
      ¬ n ≤ maxD →
      LoopStep env sels pagOn ns maxD n (items, visited) (items, visited)
  | stopCond (n : Int) (items : List ScrapedDataItem) (visited : List Int) :
      n ≤ maxD → (pagOn && strTruthy ns && decide (n < maxD)) = false →
      LoopStep env sels pagOn ns maxD n (items, visited)
        (items ++ scrapePage (env.pages n) sels, visited ++ [n])
  | stopNext (n : Int) (items : List ScrapedDataItem) (visited : List Int) :
      n ≤ maxD → (pagOn && strTruthy ns && decide (n < maxD)) = true →
      (env.pages n).next ≠ NextOutcome.advance →
      LoopStep env sels pagOn ns maxD n (items, visited)
        (items ++ scrapePage (env.pages n) sels, visited ++ [n])
  | advance (n : Int) (items : List ScrapedDataItem) (visited : List Int)
      (out : List ScrapedDataItem × List Int) :
      n ≤ maxD → (pagOn && strTruthy ns && decide (n < maxD)) = true →
      (env.pages n).next = NextOutcome.advance →
      LoopStep env sels pagOn ns maxD (n + 1)
        (items ++ scrapePage (env.pages n) sels, visited ++ [n]) out →
      LoopStep env sels pagOn ns maxD n (items, visited) out

theorem loopStep_deterministic (env : SessionStub) (sels : List Selector) (pagOn : Bool)
    (ns : Option String) (maxD : Int) (n : Int)
    (acc out1 out2 : List ScrapedDataItem × List Int)
    (h1 : LoopStep env sels pagOn ns maxD n acc out1)
    (h2 : LoopStep env sels pagOn ns maxD n acc out2) : out1 = out2 := by
  induction h1 generalizing out2 with
  | done n items visited hn =>
    cases h2
    case done => rfl
    case stopCond hn2 hc2 => exact absurd hn2 hn
    case stopNext hn2 hc2 hx2 => exact absurd hn2 hn
    case advance out2 hn2 hc2 hx2 hs2 => exact absurd hn2 hn
  | stopCond n items visited hn hc =>
    cases h2
    case done hn2 => exact absurd hn hn2
    case stopCond hn2 hc2 => rfl
    case stopNext hn2 hc2 hx2 => simp [hc] at hc2
    case advance out2 hn2 hc2 hx2 hs2 => simp [hc] at hc2
  | stopNext n items visited hn hc hx =>
    cases h2
    case done hn2 => exact absurd hn hn2
    case stopCond hn2 hc2 => simp [hc] at hc2
    case stopNext hn2 hc2 hx2 => rfl
    case advance out2 hn2 hc2 hx2 hs2 => exact absurd hx2 hx
  | advance n items visited out hn hc hx hs ih =>
    cases h2
    case done hn2 => exact absurd hn hn2
    case stopCond hn2 hc2 => simp [hc] at hc2
    case stopNext hn2 hc2 hx2 => exact absurd hx hx2
    case advance out2 hn2 hc2 hx2 hs2 => exact ih _ hs2

theorem loopStep_runLoop (env : SessionStub) (sels : List Selector) (pagOn : Bool)
    (ns : Option String) (maxD : Int) :
    ∀ (fuel : Nat) (n : Int) (items : List ScrapedDataItem) (visited : List Int),
      (maxD - n).toNat < fuel →
      LoopStep env sels pagOn ns maxD n (items, visited)
        (runLoop env sels pagOn ns maxD fuel n (items, visited)) := by
  intro fuel
  induction fuel with
  | zero =>
    intro n items visited hf
    omega
  | succ f ih =>
    intro n items visited hf
    by_cases hn : n ≤ maxD
    · by_cases hc : (pagOn && strTruthy ns && decide (n < maxD)) = true
      · have hlt : n < maxD := by
          simp only [Bool.and_eq_true, decide_eq_true_eq] at hc
          exact hc.2
        rcases hx : (env.pages n).next with _ | _ | _ | _
        · rw [runLoop_succ, if_pos hn, if_pos hc, hx]
          exact LoopStep.advance n items visited _ hn hc hx
            (ih (n + 1) _ _ (by omega))
        all_goals
          rw [runLoop_succ, if_pos hn, if_pos hc, hx]
          exact LoopStep.stopNext n items visited hn hc (by simp [hx])
      · have hc2 : (pagOn && strTruthy ns && decide (n < maxD)) = false := by
          simpa using hc
        rw [runLoop_succ, if_pos hn, if_neg hc]
        exact LoopStep.stopCond n items visited hn hc2
    · rw [runLoop_succ, if_neg hn]
      exact LoopStep.done n items visited hn

/-- Big-step relation of one full `runScraper` run: launch failure, initial
navigation failure, or a complete walk of the pagination loop. -/
inductive RunRel (w : World) (cfg : ScraperConfig) : RunOutcome → Prop
  | launchFail : w.launchOk = false →
      RunRel w cfg ⟨Except.error ("Scraping failed for " ++ cfg.url), [], false, false⟩
  | navFail : w.launchOk = true → w.gotoOk = false →
      RunRel w cfg ⟨Except.error ("Scraping failed for " ++ cfg.url), [], true, true⟩
  | success (items : List ScrapedDataItem) (visited : List Int) :
      w.launchOk = true → w.gotoOk = true →
      LoopStep w.session cfg.selectors cfg.paginationEnabled cfg.paginationNextSelector
        (effMaxDepth cfg) 1 ([], []) (items, visited) →
      RunRel w cfg ⟨Except.ok items, visited, true, true⟩

/-- `runScraper` realises the big-step relation (totality of `RunRel`). -/
theorem runRel_runScraper (w : World) (cfg : ScraperConfig) :
    RunRel w cfg (runScraper w cfg) := by
  by_cases hl : w.launchOk = true
  · by_cases hg : w.gotoOk = true
    · rw [runScraper_ok w cfg hl hg]
      refine RunRel.success _ _ hl hg ?_
      have h := loopStep_runLoop w.session cfg.selectors cfg.paginationEnabled
        cfg.paginationNextSelector (effMaxDepth cfg) ((effMaxDepth cfg).toNat + 1) 1 [] []
        (by omega)
      simpa using h
    · have hg2 : w.gotoOk = false := by simpa using hg
      have hr : runScraper w cfg =
          ⟨Except.error ("Scraping failed for " ++ cfg.url), [], true, true⟩ := by
        simp [runScraper, hl, hg2]
      rw [hr]
      exact RunRel.navFail hl hg2
  · have hl2 : w.launchOk = false := by simpa using hl
    have hr : runScraper w cfg =
        ⟨Except.error ("Scraping failed for " ++ cfg.url), [], false, false⟩ := by
      simp [runScraper, hl2]
    rw [hr]
    exact RunRel.launchFail hl2

/-! ## Sample stubs for concrete evaluation -/

/-- Sample page: an `h1` element holding padded text, every other selector
raising; the next-page advance always succeeds. -/
def samplePage : PageStub :=
  { query := fun s => if s = "h1" then QueryOutcome.text (some "  Hello ") else QueryOutcome.fail
    next := NextOutcome.advance }

/-- Page on which every selector query raises. -/
def pFail : PageStub :=
  { query := fun _ => QueryOutcome.fail, next := NextOutcome.advance }

/-- Session showing `samplePage` at every page index. -/
def sampleSession : SessionStub := { pages := fun _ => samplePage }

/-- Environment where launch and initial navigation succeed. -/
def sampleWorld : World :=
  { launchOk := true, gotoOk := true, session := sampleSession }

/-- Environment where the browser launch fails. -/
def failWorld : World :=
  { launchOk := false, gotoOk := true, session := sampleSession }

/-- Single-field job with pagination disabled. -/
def sampleCfg : ScraperConfig :=
  { url := "https://example.com", selectors := [⟨"title", "h1"⟩]
    paginationEnabled := false, paginationNextSelector := none, maxDepth := some 5 }

/-- Single-field job with pagination enabled and `maxDepth = 3`. -/
def cfgThree : ScraperConfig :=
  { url := "https://example.com", selectors := [⟨"title", "h1"⟩]
    paginationEnabled := true, paginationNextSelector := some "a.next", maxDepth := some 3 }

/-- Single-field job with pagination enabled and `maxDepth = 0`. -/
def cfgZeroDepth : ScraperConfig :=
  { url := "https://example.com", selectors := [⟨"title", "h1"⟩]
    paginationEnabled := true, paginationNextSelector := some "a.next", maxDepth := some 0 }

/-- Single-field job with pagination enabled and `maxDepth = -1`. -/
def cfgNegDepth : ScraperConfig :=
  { url := "https://example.com", selectors := [⟨"title", "h1"⟩]
    paginationEnabled := true, paginationNextSelector := some "a.next", maxDepth := some (-1) }

/-! ## Claims -/

/-- C2: with `paginationEnabled = false` (and the session stages
succeeding), `runScraper` visits exactly page 1 and returns exactly that
page's scrape, whatever `maxDepth` holds and whatever the next-page
controls would do. -/
theorem runScraper_pagination_disabled_single_page :
    ∀ (w : World) (cfg : ScraperConfig),
      w.launchOk = true → w.gotoOk = true → cfg.paginationEnabled = false →
      (runScraper w cfg).visited = [1]
      ∧ (runScraper w cfg).result =
          Except.ok (scrapePage (w.session.pages 1) cfg.selectors) := by
  intro w cfg hl hg hp
  have hd : effMaxDepth cfg = 1 := by simp [effMaxDepth, hp]
  rw [runScraper_ok w cfg hl hg, hd, hp]
  refine ⟨?_, ?_⟩ <;> simp [runLoop_succ]

/-- Witness for C2 at a concrete stub. -/
theorem runScraper_pagination_disabled_single_page_witness :
    (runScraper sampleWorld sampleCfg).visited = [1]
    ∧ (runScraper sampleWorld sampleCfg).result =
        Except.ok (scrapePage (sampleWorld.session.pages 1) sampleCfg.selectors) :=
  runScraper_pagination_disabled_single_page sampleWorld sampleCfg rfl rfl rfl

/-- C3: for distinct field names, a page contributes its record iff at
least one field extracted non-null text, and every emitted record has a
non-null field. -/
theorem scrapePage_emits_iff_some_field :
    ∀ (p : PageStub) (sels : List Selector),
      (sels.map fun s => s.fieldName).Nodup →
      (scrapePage p sels = [] ↔ ∀ sel ∈ sels, extractField p sel = none)
      ∧ (∀ r ∈ scrapePage p sels, ∃ kv ∈ r, kv.2 ≠ none) := by
  intro p sels hnd
  have hsnd : (scrapeFields p sels [] false).2
      = sels.any fun s => (extractField p s).isSome := by
    simpa using scrapeFields_snd p sels [] false
  constructor
  · have hiff : (scrapePage p sels = []) ↔ (scrapeFields p sels [] false).2 = false := by
      cases hb : (scrapeFields p sels [] false).2 <;> simp [scrapePage, hb]
    rw [hiff, hsnd]
    constructor
    · intro h sel hmem
      have h2 := List.any_eq_false.mp h sel hmem
      simpa [Option.not_isSome_iff_eq_none] using h2
    · intro h
      rw [List.any_eq_false]
      intro sel hmem
      simp [h sel hmem]
  · intro r hr
    have hb : (scrapeFields p sels [] false).2 = true := by
      by_contra hb2
      have hb3 : (scrapeFields p sels [] false).2 = false := by simpa using hb2
      simp [scrapePage, hb3] at hr
    have hrr : r = (scrapeFields p sels [] false).1 := by
      simp [scrapePage, hb] at hr
      exact hr
    rw [hsnd, List.any_eq_true] at hb
    obtain ⟨sel, hmem, hsome⟩ := hb
    obtain ⟨v, hv⟩ := Option.isSome_iff_exists.1 hsome
    have hget := getField_scrapeFields p sels hnd [] false sel hmem
    rw [hv] at hget
    refine ⟨(sel.fieldName, some v), ?_, by simp⟩
    rw [hrr]
    exact getField_mem _ _ _ hget

/-- Witness for C3 at a concrete stub: a page where every query raises
contributes zero records. -/
theorem scrapePage_emits_iff_some_field_witness :
    scrapePage pFail [⟨"title", "h1"⟩] = [] :=
  (scrapePage_emits_iff_some_field pFail [⟨"title", "h1"⟩] (by decide)).1.mpr (by decide)

/-- C4: a run fails iff the browser launch or the initial navigation
fails; every per-field and per-advance failure is absorbed and the run
still returns an `ok` value, and a fatal error is raised before any page
is visited (no partial result behind an error). -/
theorem runScraper_fatal_iff_launch_or_nav :
    ∀ (w : World) (cfg : ScraperConfig),
      ((runScraper w cfg).result.isOk = true ↔ (w.launchOk = true ∧ w.gotoOk = true))
      ∧ ((runScraper w cfg).result.isOk = false → (runScraper w cfg).visited = []) := by
  intro w cfg
  by_cases hl : w.launchOk = true
  · by_cases hg : w.gotoOk = true
    · rw [runScraper_ok w cfg hl hg]
      simp [hl, hg, Except.isOk, Except.toBool]
    · have hg2 : w.gotoOk = false := by simpa using hg
      simp [runScraper, hl, hg2, Except.isOk, Except.toBool]
  · have hl2 : w.launchOk = false := by simpa using hl
    simp [runScraper, hl2, Except.isOk, Except.toBool]

/-- Witness for C4: with a failing launch, the error carries no partial
visit log. -/
theorem runScraper_fatal_iff_launch_or_nav_witness :
    (runScraper failWorld sampleCfg).visited = [] :=
  (runScraper_fatal_iff_launch_or_nav failWorld sampleCfg).2 (by decide)

/-- C5, counterexample: with `paginationEnabled = true` and
`maxDepth = -1`, the effective depth stays `-1` (JavaScript truthiness
only replaces `0` and `undefined` by `1`), the loop guard
`1 <= maxDepth` is false at once, and the run visits zero pages instead
of the single visit the claim requires. -/
theorem runScraper_negative_maxDepth_zero_visits :
    effMaxDepth cfgNegDepth = -1
    ∧ (runScraper sampleWorld cfgNegDepth).visited = []
    ∧ (runScraper sampleWorld cfgNegDepth).result = Except.ok [] :=
  ⟨by decide, by decide, rfl⟩

/-- C5 (amended): a `maxDepth` of `0` (or absent) is treated as 1 — a
single page visit with no pagination attempt — but a negative `maxDepth`
is used as the loop bound directly, so the run visits zero pages. -/
theorem runScraper_maxDepth_edge_policy :
    ∀ (w : World) (cfg : ScraperConfig),
      w.launchOk = true → w.gotoOk = true →
      ((cfg.maxDepth = some 0 ∨ cfg.maxDepth = none) → (runScraper w cfg).visited = [1])
      ∧ (∀ d : Int, d < 0 → cfg.maxDepth = some d → cfg.paginationEnabled = true →
          (runScraper w cfg).visited = []) := by
  intro w cfg hl hg
  constructor
  · intro hm
    have hd : effMaxDepth cfg = 1 := by
      rcases hm with hm | hm <;> simp [effMaxDepth, hm, intTruthy]
    rw [runScraper_ok w cfg hl hg, hd]
    simp [runLoop_succ]
  · intro d hdneg hm hp
    have hd : effMaxDepth cfg = d := effMaxDepth_of_enabled cfg d hp hm (by omega)
    have h0 : d.toNat = 0 := by omega
    have h1 : ¬(1 : Int) ≤ d := by omega
    rw [runScraper_ok w cfg hl hg, hd, h0]
    simp [runLoop_succ, h1]

/-- Witness for C5 (amended) at concrete stubs. -/
theorem runScraper_maxDepth_edge_policy_witness :
    (runScraper sampleWorld cfgZeroDepth).visited = [1]
    ∧ (runScraper sampleWorld cfgNegDepth).visited = [] :=
  ⟨(runScraper_maxDepth_edge_policy sampleWorld cfgZeroDepth rfl rfl).1 (Or.inl rfl),
   (runScraper_maxDepth_edge_policy sampleWorld cfgNegDepth rfl rfl).2 (-1) (by decide) rfl rfl⟩

/-- C6: an empty or whitespace-only `cssSelector` makes the field null and
never aborts the record (the field still gets its entry, as does every
other field); a successful query yields the first element's text trimmed,
normalised to null when empty after trimming. -/
theorem scrapePage_field_extraction_policy :
    ∀ (p : PageStub) (sels : List Selector) (sel : Selector),
      (jsTrim sel.cssSelector = "" → extractField p sel = none)
      ∧ (∀ s : String, jsTrim sel.cssSelector ≠ "" →
          p.query sel.cssSelector = QueryOutcome.text (some s) →
          extractField p sel = (if jsTrim s = "" then none else some (jsTrim s)))
      ∧ (sel ∈ sels → sel.fieldName ∈ (scrapeFields p sels [] false).1.map Prod.fst) := by
  intro p sels sel
  refine ⟨fun h => by simp [extractField, h],
    fun s hne hq => by simp [extractField, hne, hq],
    fun hmem => ?_⟩
  rw [mem_keys_scrapeFields]
  right
  exact List.mem_map.2 ⟨sel, hmem, rfl⟩

/-- Witness for C6: a whitespace-only selector in a two-field list turns
its own field null but the other field still extracts its trimmed text. -/
theorem scrapePage_field_extraction_policy_witness :
    extractField samplePage ⟨"empty", " "⟩ = none
    ∧ "empty" ∈ (scrapeFields samplePage [⟨"empty", " "⟩, ⟨"title", "h1"⟩] [] false).1.map Prod.fst
    ∧ extractField samplePage ⟨"title", "h1"⟩ = some "Hello" :=
  ⟨(scrapePage_field_extraction_policy samplePage [] ⟨"empty", " "⟩).1 (by decide),
   (scrapePage_field_extraction_policy samplePage [⟨"empty", " "⟩, ⟨"title", "h1"⟩]
      ⟨"empty", " "⟩).2.2 (by decide),
   by
     rw [(scrapePage_field_extraction_policy samplePage [] ⟨"title", "h1"⟩).2.1 "  Hello "
       (by decide) rfl]
     decide⟩

/-- C7: the value of a field depends only on the page's answer at that
field's own selector (a failure at another field's selector cannot change
it); with unique field names each field's entry is exactly its own
extraction, and the record's entries do not depend on the order of the
field list. -/
theorem scrapePage_order_independent_failure_isolated :
    ∀ (p : PageStub) (sels : List Selector),
      (sels.map fun s => s.fieldName).Nodup →
      (∀ p2 : PageStub, ∀ sel : Selector,
          p2.query sel.cssSelector = p.query sel.cssSelector →
          extractField p2 sel = extractField p sel)
      ∧ (∀ sel ∈ sels, getField (scrapeFields p sels [] false).1 sel.fieldName
          = some (extractField p sel))
      ∧ (∀ sels2 : List Selector, sels.Perm sels2 → ∀ k : String,
          getField (scrapeFields p sels [] false).1 k
            = getField (scrapeFields p sels2 [] false).1 k) := by
  intro p sels hnd
  refine ⟨fun p2 sel h => by simp [extractField, h],
    fun sel hmem => getField_scrapeFields p sels hnd [] false sel hmem,
    fun sels2 hperm k => ?_⟩
  have hnd2 : (sels2.map fun s => s.fieldName).Nodup :=
    ((hperm.map fun s => s.fieldName).nodup_iff).1 hnd
  by_cases hk : k ∈ sels.map fun s => s.fieldName
  · obtain ⟨sel, hmem, rfl⟩ := List.mem_map.1 hk
    rw [getField_scrapeFields p sels hnd [] false sel hmem,
      getField_scrapeFields p sels2 hnd2 [] false sel (hperm.mem_iff.1 hmem)]
  · have hk2 : k ∉ sels2.map fun s => s.fieldName := by
      intro h
      exact hk (((hperm.map fun s => s.fieldName).mem_iff).2 h)
    rw [getField_scrapeFields_stable p sels [] false k hk,
      getField_scrapeFields_stable p sels2 [] false k hk2]

/-- Witness for C7: the two orders of a two-field list agree on the
"title" entry, and a page that fails the other selector leaves "title"
unchanged. -/
theorem scrapePage_order_independent_failure_isolated_witness :
    extractField pFail ⟨"title", "h2"⟩ = extractField samplePage ⟨"title", "h2"⟩
    ∧ getField (scrapeFields samplePage [⟨"empty", "h2"⟩, ⟨"title", "h1"⟩] [] false).1 "title"
        = getField (scrapeFields samplePage [⟨"title", "h1"⟩, ⟨"empty", "h2"⟩] [] false).1 "title" :=
  ⟨(scrapePage_order_independent_failure_isolated pFail [] (by decide)).1 samplePage
      ⟨"title", "h2"⟩ (by decide),
   (scrapePage_order_independent_failure_isolated samplePage
      [⟨"empty", "h2"⟩, ⟨"title", "h1"⟩] (by decide)).2.2
      [⟨"title", "h1"⟩, ⟨"empty", "h2"⟩] (by decide) "title"⟩

/-- C8: on every exit path of `runScraper` — normal completion, graceful
pagination stop, and the fatal initial-navigation path — the browser is
closed whenever it was acquired. -/
theorem runScraper_browser_released :
    ∀ (w : World) (cfg : ScraperConfig),
      (runScraper w cfg).browserAcquired = true → (runScraper w cfg).browserClosed = true := by
  intro w cfg
  by_cases hl : w.launchOk = true
  · by_cases hg : w.gotoOk = true
    · rw [runScraper_ok w cfg hl hg]
      intro
      rfl
    · have hg2 : w.gotoOk = false := by simpa using hg
      simp [runScraper, hl, hg2]
  · have hl2 : w.launchOk = false := by simpa using hl
    simp [runScraper, hl2]

/-- Witness for C8 at a concrete stub. -/
theorem runScraper_browser_released_witness :
    (runScraper sampleWorld sampleCfg).browserClosed = true :=
  runScraper_browser_released sampleWorld sampleCfg (by decide)

/-- C9: the run relation is deterministic — against one fixed page-session
stub, any two runs of the same job yield the same outcome (same records,
same order, same visit log). -/
theorem runScraper_deterministic :
    ∀ (w : World) (cfg : ScraperConfig) (o1 o2 : RunOutcome),
      RunRel w cfg o1 → RunRel w cfg o2 → o1 = o2 := by
  intro w cfg o1 o2 h1 h2
  cases h1 with
  | launchFail hl1 =>
    cases h2 with
    | launchFail hl2 => rfl
    | navFail hl2 hg2 => simp [hl1] at hl2
    | success items2 visited2 hl2 hg2 hs2 => simp [hl1] at hl2
  | navFail hl1 hg1 =>
    cases h2 with
    | launchFail hl2 => simp [hl1] at hl2
    | navFail hl2 hg2 => rfl
    | success items2 visited2 hl2 hg2 hs2 => simp [hg1] at hg2
  | success items1 visited1 hl1 hg1 hs1 =>
    cases h2 with
    | launchFail hl2 => simp [hl1] at hl2
    | navFail hl2 hg2 => simp [hg1] at hg2
    | success items2 visited2 hl2 hg2 hs2 =>
      have h := loopStep_deterministic _ _ _ _ _ _ _ _ _ hs1 hs2
      simp only [Prod.mk.injEq] at h
      rw [h.1, h.2]

/-- Witness for C9: two runs at a concrete stub, both related through
`RunRel`, coincide. -/
theorem runScraper_deterministic_witness :
    runScraper sampleWorld sampleCfg = runScraper sampleWorld sampleCfg :=
  runScraper_deterministic sampleWorld sampleCfg _ _
    (runRel_runScraper sampleWorld sampleCfg) (runRel_runScraper sampleWorld sampleCfg)

/-- C10: the record built for a page has pairwise-distinct keys, its key
set is exactly the set of field names of the job (a field whose selector
was empty or failed still has its entry, bound to null), and each page
visit contributes at most one record, which is exactly that record. -/
theorem scrapePage_record_shape :
    ∀ (p : PageStub) (sels : List Selector),
      ((scrapeFields p sels [] false).1.map Prod.fst).Nodup
      ∧ (∀ k : String, k ∈ (scrapeFields p sels [] false).1.map Prod.fst ↔
          k ∈ sels.map fun s => s.fieldName)
      ∧ (scrapePage p sels).length ≤ 1
      ∧ (∀ r ∈ scrapePage p sels, r = (scrapeFields p sels [] false).1) := by
  intro p sels
  refine ⟨nodup_keys_scrapeFields p sels [] false (by simp), fun k => ?_, ?_, ?_⟩
  · rw [mem_keys_scrapeFields]
    simp
  · cases hb : (scrapeFields p sels [] false).2 <;> simp [scrapePage, hb]
  · intro r hr
    cases hb : (scrapeFields p sels [] false).2 with
    | false => simp [scrapePage, hb] at hr
    | true =>
      simp [scrapePage, hb] at hr
      exact hr

/-- Witness for C10 at a concrete stub. -/
theorem scrapePage_record_shape_witness :
    [("title", (some "Hello" : Option String))] =
      (scrapeFields samplePage [⟨"title", "h1"⟩] [] false).1 :=
  (scrapePage_record_shape samplePage [⟨"title", "h1"⟩]).2.2.2
    [("title", some "Hello")] (by decide)

/-- Session whose next-page control is present on every page
(`waitForSelector` succeeds and `page.$` finds the handle) but whose
click/navigation pair raises. -/
def clickFailSession : SessionStub :=
  { pages := fun _ => { query := fun _ => QueryOutcome.fail, next := NextOutcome.clickFail } }

/-- Environment over `clickFailSession` with launch and navigation fine. -/
def clickFailWorld : World :=
  { launchOk := true, gotoOk := true, session := clickFailSession }

/-- Single-field job with pagination enabled and `maxDepth = 2`. -/
def cfgTwoPages : ScraperConfig :=
  { url := "https://example.com", selectors := [⟨"title", "h1"⟩]
    paginationEnabled := true, paginationNextSelector := some "a.next", maxDepth := some 2 }

/-- C1, counterexample: with `maxPages = 2` and the next-page selector
available on page 1, a click/navigation failure still ends the run after
one page — the run visits fewer than N pages although the next-page
selector never became unavailable, refuting the claimed "iff" as
stated. -/
theorem runScraper_fewer_pages_click_failure :
    (runScraper clickFailWorld cfgTwoPages).visited = [1]
    ∧ (clickFailWorld.session.pages 1).next = NextOutcome.clickFail
    ∧ (clickFailWorld.session.pages 1).next ≠ NextOutcome.waitFail
    ∧ (clickFailWorld.session.pages 1).next ≠ NextOutcome.noHandle :=
  ⟨by decide, rfl, by decide, by decide⟩

/-- C1 (amended): with pagination enabled, a present next-page selector
and `maxDepth = N > 0`, the run visits at most N pages — the page index
stops advancing at N even when every advance would succeed — and it
visits fewer than N pages iff some next-page advance attempt before page
N fails (selector unavailable, handle missing, or click/navigation
failure). -/
theorem runScraper_depth_bound_and_stop :
    ∀ (w : World) (cfg : ScraperConfig) (N : Int),
      w.launchOk = true → w.gotoOk = true →
      cfg.paginationEnabled = true → cfg.maxDepth = some N → 0 < N →
      strTruthy cfg.paginationNextSelector = true →
      (runScraper w cfg).visited.length ≤ N.toNat
      ∧ ((runScraper w cfg).visited.length < N.toNat ↔
          ∃ i : Int, 1 ≤ i ∧ i < N ∧ (w.session.pages i).next ≠ NextOutcome.advance) := by
  intro w cfg N hl hg hp hm hN hns
  have hd : effMaxDepth cfg = N := effMaxDepth_of_enabled cfg N hp hm (by omega)
  have hv : (runScraper w cfg).visited =
      (runLoop w.session cfg.selectors true cfg.paginationNextSelector
        N (N.toNat + 1) 1 ([], [])).2 := by
    rw [runScraper_ok w cfg hl hg, hd, hp]
  rw [hv]
  refine ⟨?_, ?_, ?_⟩
  · have h := runLoop_length_le w.session cfg.selectors true cfg.paginationNextSelector N
      (N.toNat + 1) 1 [] []
    simp only [List.length_nil] at h
    omega
  · intro hlt
    by_contra hno
    push_neg at hno
    have h := runLoop_length_all_advance w.session cfg.selectors
      cfg.paginationNextSelector N hns (N.toNat + 1) 1 [] [] (by omega) (by omega)
      (fun i hi1 hi2 => hno i hi1 hi2)
    simp only [List.length_nil] at h
    omega
  · intro hex
    obtain ⟨i, hi1, hi2, hi3⟩ := hex
    have h := runLoop_length_of_fail w.session cfg.selectors
      cfg.paginationNextSelector N hns (N.toNat + 1) 1 [] [] (by omega)
      ⟨i, hi1, hi2, hi3⟩
    simp only [List.length_nil] at h
    omega

/-- Witness for C1 (amended): a three-page all-advance walk hits the depth
bound exactly. -/
theorem runScraper_depth_bound_and_stop_witness :
    (runScraper sampleWorld cfgThree).visited.length ≤ (3 : Int).toNat :=
  (runScraper_depth_bound_and_stop sampleWorld cfgThree 3 rfl rfl rfl rfl
    (by decide) (by decide)).1
